import Mathlib

/-!
Shallow embedding of the rate-limiting / quota core of the repository:

* `src/workflows/utils/rate_limiter.py` — `RedisRateLimiter` (sync task path):
  `LIMITS` registry, `check_and_increment`, `sync_with_twitter_headers`,
  `exponential_backoff`.
* `src/backend/middleware/rate_limiter.py` — `RateLimiter.is_rate_limited`,
  `RateLimiter.check_monthly_quota`, `RateLimitMiddleware.dispatch`.
* `src/backend/database/supabase_client.py` — `get_current_usage`.
* `src/backend/config.py` — `TierLimits.get_monthly_quota`.

Modelling conventions:
* Redis sorted-set windows are `Finset` of scores.  In both limiters the
  member string is determined by the score (backend: `str(current_time)`;
  workflows: `f"{now}:{user_id}"` with the user fixed by the key), so a set
  of scores is an exact model of the per-key sorted set.
* Workflow timestamps come from `time.time()` (a float, hence a rational),
  modelled over an arbitrary linearly ordered ring with floor (`ℚ` is an
  instance); backend timestamps are `int(datetime.now().timestamp())`,
  modelled as `ℤ`.
* Python `int()` truncation toward zero is `pyInt`.
* Each `pipeline().execute()` (redis-py default pipeline, MULTI/EXEC) is one
  atomic store round trip and is modelled as one Lean function on the window.
* A raised-and-caught store exception is modelled by a `redis_ok : Bool`
  input (`false` = the store call raised).  Key TTLs (`expire`, `setex`
  lifetimes) are not tracked; no claim here depends on them.
-/

namespace Repazoo

/-! Timestamps produced by `time.time()` are floats, i.e. rationals.  The
workflow limiter is embedded over any linearly ordered ring with a floor so
that the theorems cover the rational (float) timestamps of the source while
concrete witnesses may instantiate the time type at `ℤ`.  Only ordering,
`+`/`-` and `int()` truncation are ever applied to timestamps. -/

variable {τ : Type} [LinearOrderedCommRing τ] [FloorRing τ]

/-- Python truncation toward zero, the semantics of `int()` on a float. -/
def pyInt (q : τ) : ℤ := if 0 ≤ q then ⌊q⌋ else ⌈q⌉

/-! ## Workflows limiter (`src/workflows/utils/rate_limiter.py`) -/

/-- One entry of `RedisRateLimiter.LIMITS`: `{'requests': …, 'window_seconds': …}`
(the `description` string is irrelevant to behaviour and omitted). -/
structure LimitConfig where
  requests : ℕ
  window_seconds : ℕ
deriving DecidableEq, Repr

/-- The `LIMITS` dict of `RedisRateLimiter.__init__` (lines 42-68), as a
lookup; Python `service not in self.LIMITS` is `LIMITS service = none`. -/
def LIMITS (service : String) : Option LimitConfig :=
  if service = "twitter_user_timeline" then some ⟨900, 900⟩
  else if service = "twitter_user_lookup" then some ⟨900, 900⟩
  else if service = "twitter_tweet_lookup" then some ⟨300, 900⟩
  else if service = "anthropic_api" then some ⟨50, 60⟩
  else if service = "anthropic_api_tier2" then some ⟨100, 60⟩
  else none

/-- Result of `check_and_increment`: the `(allowed, retry_after)` tuple. -/
structure CheckResult where
  allowed : Bool
  retry_after : ℤ
deriving DecidableEq, Repr

/-- First pipeline round trip of `check_and_increment` (lines 98-109):
`zremrangebyscore(key, 0, window_start)` then `zcard(key)`, executed as one
atomic `pipe.execute()`.  `ZREMRANGEBYSCORE 0 m` removes scores in `[0, m]`.
Returns the observed count and the post-eviction window. -/
def pipe_evict_count (w : Finset τ) (window_start : τ) : ℕ × Finset τ :=
  let kept := w.filter (fun e => ¬(0 ≤ e ∧ e ≤ window_start))
  (kept.card, kept)

/-- Second pipeline round trip of `check_and_increment` (lines 127-130):
`zadd(key, {f"{now}:{user_id}": now})` then `expire(key, window+60)`, one
atomic `pipe.execute()`.  The member string is determined by `now` for a
fixed key, so `zadd` is set insertion of the score. -/
def pipe_add_expire (w : Finset τ) (now : τ) : Finset τ := insert now w

/-- Body of `RedisRateLimiter.check_and_increment` after the registry lookup
(lines 89-136), for one key, with the store healthy.  Note the two pipeline
round trips are sequential, with the conditional insert in the second. -/
def check_one (cfg : LimitConfig) (w : Finset τ) (now : τ) :
    CheckResult × Finset τ :=
  let window_start := now - (cfg.window_seconds : τ)
  let ec := pipe_evict_count w window_start
  let current_count := ec.1
  let w1 := ec.2
  if cfg.requests ≤ current_count then
    -- `zrange(key, 0, 0, withscores=True)` reads the oldest surviving score
    let retry_after :=
      if h : w1.Nonempty then
        pyInt (w1.min' h + (cfg.window_seconds : τ) - now) + 1
      else (cfg.window_seconds : ℤ)
    (⟨false, retry_after⟩, w1)
  else
    (⟨true, 0⟩, pipe_add_expire w1 now)

/-- `RedisRateLimiter.check_and_increment` (lines 74-141).  An unknown
service is allowed with a warning before any store access (lines 85-87); a
`redis.RedisError` is caught and the call returns `(True, 0)` (lines
138-141) — the value returned is the same wherever in the `try` block the
error occurred. -/
def check_and_increment (service : String) (w : Finset τ) (now : τ)
    (redis_ok : Bool) : CheckResult × Finset τ :=
  match LIMITS service with
  | none => (⟨true, 0⟩, w)
  | some cfg => if redis_ok then check_one cfg w now else (⟨true, 0⟩, w)

/-- Sequential same-key calls to `check_and_increment` at the given
timestamps, threading the window. -/
def run_workflow_calls (service : String) (w : Finset τ) :
    List τ → List CheckResult × Finset τ
  | [] => ([], w)
  | t :: ts =>
    let r := check_and_increment service w t true
    let rest := run_workflow_calls service r.2 ts
    (r.1 :: rest.1, rest.2)

/-- One interleaving of two concurrent same-key `check_and_increment` calls
(callers A at `tA`, B at `tB`): both first pipelines (evict+count), then
both second pipelines (conditional insert), each pipeline atomic, program
order of each caller preserved.  Returns (A admitted, B admitted, final
window). -/
def interleave_two (cfg : LimitConfig) (w0 : Finset τ) (tA tB : τ) :
    Bool × Bool × Finset τ :=
  let ecA := pipe_evict_count w0 (tA - (cfg.window_seconds : τ))
  let ecB := pipe_evict_count ecA.2 (tB - (cfg.window_seconds : τ))
  let admitA := decide (ecA.1 < cfg.requests)
  let w3 := if ecA.1 < cfg.requests then pipe_add_expire ecB.2 tA else ecB.2
  let admitB := decide (ecB.1 < cfg.requests)
  let w4 := if ecB.1 < cfg.requests then pipe_add_expire w3 tB else w3
  (admitA, admitB, w4)

/-! ### Upstream sync (`sync_with_twitter_headers`, lines 179-232) -/

/-- Parsed `x-rate-limit-*` headers (`parse_twitter_headers`, lines
179-204); `none` models a parse failure returning `None`. -/
structure TwitterHeaders where
  limit : ℤ
  remaining : ℤ
  reset : ℤ
deriving DecidableEq, Repr

/-- Redis state visible to one (service, user) pair: the sliding-window
sorted set `ratelimit:{service}:{user}` and the string key
`twitter_reset:{service}:{user}`. -/
structure RedisState (τ : Type) where
  window : Finset τ
  twitter_reset : Option ℤ
deriving DecidableEq

/-- `RedisRateLimiter.sync_with_twitter_headers` (lines 206-232): on a
parse failure it returns; otherwise it logs a warning when `remaining < 10`
and `setex`es Twitter's reset epoch under the separate `twitter_reset:` key.
It touches no other state. -/
def sync_with_twitter_headers (st : RedisState τ) (parsed : Option TwitterHeaders) :
    RedisState τ :=
  match parsed with
  | none => st
  | some info => { st with twitter_reset := some info.reset }

/-! ### Retry controller (`exponential_backoff`, lines 262-307) -/

/-- Outcome of one attempt of the wrapped call, as seen by the
`exponential_backoff` wrapper: success, or a `RateLimitExceeded` carrying
its `retry_after`. -/
inductive CallOutcome
  | success
  | rateLimited (retry_after : ℤ)
deriving DecidableEq, Repr

/-- The body of the `exponential_backoff(max_retries, base_delay)` wrapper
loop on the `RateLimitExceeded` path (lines 278-291), with `outcomes k` the
result of attempt `k` (0-based) and `fuel` the number of loop iterations
still available (`for attempt in range(max_retries + 1)` enters with
`max_retries + 1`).  Returns the list of sleep durations, in order, and
whether the call eventually succeeded (`false` = the final exception was
re-raised).  Attempt `attempt` sleeps
`min(base_delay * 2 ** attempt, e.retry_after)` (line 286) unless it was
the last allowed attempt. -/
def backoff_run (max_retries base_delay : ℕ) (outcomes : ℕ → CallOutcome) :
    ℕ → ℕ → List ℤ × Bool
  | _, 0 => ([], false)
  | attempt, fuel + 1 =>
    match outcomes attempt with
    | .success => ([], true)
    | .rateLimited r =>
      if attempt < max_retries then
        let rest := backoff_run max_retries base_delay outcomes (attempt + 1) fuel
        (min ((base_delay : ℤ) * 2 ^ attempt) r :: rest.1, rest.2)
      else ([], false)

/-- The `exponential_backoff` wrapper applied to one call: the loop starting
at attempt 0 with its `max_retries + 1` iterations. -/
def exponential_backoff (max_retries base_delay : ℕ)
    (outcomes : ℕ → CallOutcome) : List ℤ × Bool :=
  backoff_run max_retries base_delay outcomes 0 (max_retries + 1)

/-! ## Backend middleware limiter (`src/backend/middleware/rate_limiter.py`) -/

/-- A Python dict value as it appears in the quota dicts: an int, a string,
or `None`. -/
inductive Val
  | n (v : ℤ)
  | s (v : String)
  | null
deriving DecidableEq, Repr

/-- `d.get(k, default)` on an assoc-list model of a Python dict. -/
def dictGet (d : List (String × Val)) (k : String) (default : Val) : Val :=
  match d.lookup k with
  | some v => v
  | none => default

/-- Render a dict value the way the middleware interpolates it into a
header (`str(...)` for ints; strings verbatim; `None` is never rendered on
the paths modelled and is mapped to `""`). -/
def Val.render : Val → String
  | .n v => toString v
  | .s v => v
  | .null => ""

/-- `RateLimiter.is_rate_limited` (lines 49-115).  The window is the sorted
set `ratelimit:{key}:{window_seconds}`; scores and members are the integer
second `current_time`, so the set is a `Finset ℤ`.  The single pipeline
(lines 78-92) — `zremrangebyscore(key, 0, window_start)`, `zcard`,
`zadd(key, {str(current_time): current_time})`, `expire` — is one atomic
round trip; the count is read before the insert.  On a store error the
call returns `(False, default_info)` and the window is unchanged (lines
106-115).  The info dict (all values ints) is returned as an assoc list
with the source's key order. -/
def is_rate_limited (w : Finset ℤ) (current_time : ℤ) (limit : ℤ)
    (window_seconds : ℤ) (redis_ok : Bool) :
    (Bool × List (String × ℤ)) × Finset ℤ :=
  let window_start := current_time - window_seconds
  if redis_ok then
    let w1 := w.filter (fun e => ¬(0 ≤ e ∧ e ≤ window_start))
    let current_requests : ℤ := w1.card
    let w2 := insert current_time w1
    let is_limited := limit ≤ current_requests
    ((is_limited,
      [("requests", current_requests), ("limit", limit),
       ("remaining", max 0 (limit - current_requests)),
       ("reset_at", current_time + window_seconds),
       ("window_seconds", window_seconds)]), w2)
  else
    ((false,
      [("requests", 0), ("limit", limit), ("remaining", limit),
       ("reset_at", current_time + window_seconds),
       ("window_seconds", window_seconds)]), w)

/-- `n` further calls to `is_rate_limited` for one key, all at the same
integer second `t` (the store healthy), threading the window. -/
def iterate_same_second (w : Finset ℤ) (t limit window_seconds : ℤ) :
    ℕ → Finset ℤ
  | 0 => w
  | n + 1 =>
    (is_rate_limited (iterate_same_second w t limit window_seconds n)
      t limit window_seconds true).2

/-- Sequential calls to `is_rate_limited` for one key at the given integer
seconds, returning the `is_limited` flags and the final window. -/
def run_middleware_calls (limit window_seconds : ℤ) (w : Finset ℤ) :
    List ℤ → List Bool × Finset ℤ
  | [] => ([], w)
  | t :: ts =>
    let r := is_rate_limited w t limit window_seconds true
    let rest := run_middleware_calls limit window_seconds r.2 ts
    (r.1.1 :: rest.1, rest.2)

/-! ## Quota path (`supabase_client.get_current_usage`,
`RateLimiter.check_monthly_quota`, `config.TierLimits`) -/

/-- `TierLimits.get_monthly_quota` (config.py lines 377-380):
`getattr(cls, tier.upper(), cls.BASIC).get("monthly_quota", 1000)`;
`"PRO"` resolves to 10000, `"BASIC"` and any unknown tier fall back to the
BASIC config's 1000. -/
def get_monthly_quota (tier : String) : ℤ :=
  if tier.toUpper = "PRO" then 10000 else 1000

/-- Condition of the durable (Supabase) quota store during one
`get_current_usage` call: a healthy read (the subscription's usage count
and tier), a missing subscription, a supabase `APIError` raised inside
`get_current_usage`, or any other exception (which `get_current_usage`
does not catch). -/
inductive DbOutcome
  | healthy (requests_used : ℤ) (tier : String)
      (period_start period_end : String)
  | noSubscription
  | apiError
  | otherError
deriving DecidableEq, Repr

/-- `supabase_client.get_current_usage` (lines 164-194): returns the usage
dict; on a missing subscription or a caught `APIError` it returns the
zeroed dict `{"requests_used": 0, "quota": 0, "remaining": 0}`; any other
exception propagates (`Except.error`). -/
def get_current_usage (db : DbOutcome) : Except Unit (List (String × Val)) :=
  match db with
  | .healthy requests_used tier period_start period_end =>
    let quota := get_monthly_quota tier
    .ok [("requests_used", .n requests_used), ("quota", .n quota),
         ("remaining", .n (max 0 (quota - requests_used))),
         ("tier", .s tier), ("period_start", .s period_start),
         ("period_end", .s period_end)]
  | .noSubscription =>
    .ok [("requests_used", .n 0), ("quota", .n 0), ("remaining", .n 0)]
  | .apiError =>
    .ok [("requests_used", .n 0), ("quota", .n 0), ("remaining", .n 0)]
  | .otherError => .error ()

/-- Read an int with `d.get(k, 0)` semantics (the keys read this way are
ints whenever present). -/
def dictGetN (d : List (String × Val)) (k : String) : ℤ :=
  match dictGet d k (.n 0) with
  | .n v => v
  | _ => 0

/-- `RateLimiter.check_monthly_quota` (middleware lines 117-146): calls
`db.get_current_usage`; `quota_exceeded = usage.get("remaining", 0) <= 0`;
any exception is caught and the check returns `(False, default_info)` with
a hard-coded basic-tier 1000 quota (lines 138-146). -/
def check_monthly_quota (db : DbOutcome) : Bool × List (String × Val) :=
  match get_current_usage db with
  | .error _ =>
    (false,
     [("requests_used", .n 0), ("quota", .n 1000),
      ("remaining", .n 1000), ("tier", .s "basic")])
  | .ok usage =>
    let quota_exceeded := dictGetN usage "remaining" ≤ 0
    (quota_exceeded,
     [("requests_used", .n (dictGetN usage "requests_used")),
      ("quota", .n (dictGetN usage "quota")),
      ("remaining", .n (dictGetN usage "remaining")),
      ("tier", dictGet usage "tier" (.s "basic")),
      ("period_start", dictGet usage "period_start" .null),
      ("period_end", dictGet usage "period_end" .null)])

/-! ## Request gate (`RateLimitMiddleware.dispatch`, lines 149-269) -/

/-- `RateLimitMiddleware.EXEMPT_ROUTES` (lines 155-161). -/
def EXEMPT_ROUTES : List String :=
  ["/docs", "/redoc", "/openapi.json", "/healthz", "/api/webhooks"]

/-- `RateLimitMiddleware._is_exempt` (lines 255-257):
`any(path.startswith(route) for route in EXEMPT_ROUTES)`; Python
`startswith` is prefix on the character sequence, `String.data`. -/
def is_exempt (path : String) : Bool :=
  EXEMPT_ROUTES.any (fun route => route.data.isPrefixOf path.data)

/-- Which limiter calls `dispatch` performed, in order. -/
inductive CheckKind
  | minute
  | hour
  | quota
deriving DecidableEq, Repr

/-- The response `dispatch` produces: the forwarded downstream response
(with the rate/quota headers added to it), or a 429 `HTTPException` with
its detail string and headers. -/
inductive Response
  | forwarded (headers : List (String × String))
  | tooManyRequests (detail : String) (headers : List (String × String))
deriving DecidableEq, Repr

/-- The per-identifier window state `dispatch` touches: the minute and hour
sorted sets for the request's identifier. -/
structure GateState where
  minuteW : Finset ℤ
  hourW : Finset ℤ
deriving DecidableEq

/-- `str(rate_info[k])` for the int-valued middleware info dict (every key
read is present at both construction sites). -/
def infoStr (info : List (String × ℤ)) (k : String) : String :=
  toString (match info.lookup k with | some v => v | none => 0)

/-- `RateLimitMiddleware.dispatch` (lines 167-253) for one request:
exempt-route short-circuit; minute check (limit
`settings.rate_limit_per_minute`, window 60); hour check (limit
`settings.rate_limit_per_hour`, window 3600); monthly-quota check for an
authenticated user; otherwise forwards and decorates the response with
`X-RateLimit-*` (from the minute check) and, for a user, `X-Quota-*`
headers.  Returns the response, the updated windows (a denial still keeps
the pipeline's insert), and the list of checks performed. -/
def dispatch (st : GateState) (path : String) (user_id : Option String)
    (now : ℤ) (redis_ok : Bool) (db : DbOutcome)
    (rate_limit_per_minute rate_limit_per_hour : ℤ) :
    Response × GateState × List CheckKind :=
  if is_exempt path then (.forwarded [], st, [])
  else
    let minuteR := is_rate_limited st.minuteW now rate_limit_per_minute 60 redis_ok
    let rate_info := minuteR.1.2
    let st1 : GateState := ⟨minuteR.2, st.hourW⟩
    if minuteR.1.1 then
      (.tooManyRequests "Rate limit exceeded. Please try again later."
        [("X-RateLimit-Limit", infoStr rate_info "limit"),
         ("X-RateLimit-Remaining", infoStr rate_info "remaining"),
         ("X-RateLimit-Reset", infoStr rate_info "reset_at"),
         ("Retry-After", infoStr rate_info "window_seconds")],
       st1, [.minute])
    else
      let hourR := is_rate_limited st.hourW now rate_limit_per_hour 3600 redis_ok
      let hour_info := hourR.1.2
      let st2 : GateState := ⟨minuteR.2, hourR.2⟩
      if hourR.1.1 then
        (.tooManyRequests "Hourly rate limit exceeded. Please try again later."
          [("X-RateLimit-Limit", infoStr hour_info "limit"),
           ("X-RateLimit-Remaining", infoStr hour_info "remaining"),
           ("X-RateLimit-Reset", infoStr hour_info "reset_at"),
           ("Retry-After", infoStr hour_info "window_seconds")],
         st2, [.minute, .hour])
      else
        match user_id with
        | none =>
          (.forwarded
            [("X-RateLimit-Limit", infoStr rate_info "limit"),
             ("X-RateLimit-Remaining", infoStr rate_info "remaining"),
             ("X-RateLimit-Reset", infoStr rate_info "reset_at")],
           st2, [.minute, .hour])
        | some _ =>
          let quotaR := check_monthly_quota db
          let quota_info := quotaR.2
          if quotaR.1 then
            (.tooManyRequests
              "Monthly quota exceeded. Upgrade to Pro for higher limits."
              [("X-Quota-Limit", (dictGet quota_info "quota" (.n 0)).render),
               ("X-Quota-Remaining", "0"),
               ("X-Quota-Reset", (dictGet quota_info "period_end" (.s "")).render)],
             st2, [.minute, .hour, .quota])
          else
            (.forwarded
              [("X-RateLimit-Limit", infoStr rate_info "limit"),
               ("X-RateLimit-Remaining", infoStr rate_info "remaining"),
               ("X-RateLimit-Reset", infoStr rate_info "reset_at"),
               ("X-Quota-Limit", (dictGet quota_info "quota" (.n 0)).render),
               ("X-Quota-Remaining", (dictGet quota_info "remaining" (.n 0)).render),
               ("X-Quota-Used", (dictGet quota_info "requests_used" (.n 0)).render)],
             st2, [.minute, .hour, .quota])

/-- The integer timestamps `0, 1, …, n-1`, used as concrete call times. -/
def intRange (n : ℕ) : List ℤ := (List.range n).map (fun k : ℕ => (k : ℤ))

end Repazoo

namespace Repazoo

/-! ## Theorems -/

/-- Claim C1 (counterexample): the claim says a quota check with the durable
store unreachable denies the request; but when the store failure surfaces as
an exception reaching `check_monthly_quota`, the check returns
`quota_exceeded = False` — it silently grants. -/
theorem c1_counterexample : (check_monthly_quota .otherError).1 = false := rfl

/-- Claim C1 (amended): when the durable quota store is unreachable, the
outcome depends on where the failure surfaces.  An exception reaching
`check_monthly_quota` is caught and the check fails open, granting with a
default basic-tier info dict of quota 1000.  A supabase `APIError` caught
inside `get_current_usage` yields the zeroed usage dict, so the check
denies — but as an ordinary quota-exceeded (remaining 0), with no distinct
"quota service unavailable" reason: the returned dict carries only the
usual usage keys. -/
theorem c1_quota_store_failure_behavior :
    check_monthly_quota .otherError =
      (false, [("requests_used", .n 0), ("quota", .n 1000),
               ("remaining", .n 1000), ("tier", .s "basic")]) ∧
    (check_monthly_quota .apiError).1 = true ∧
    (check_monthly_quota .apiError).2.map Prod.fst =
      ["requests_used", "quota", "remaining", "tier", "period_start",
       "period_end"] :=
  ⟨rfl, rfl, rfl⟩

/-- Claim C3 (counterexample): with the coordination store unreachable the
minute/hour check does admit, but the info dict it returns has no
`degraded` key at all — no `degraded = true` marker is set. -/
theorem c3_counterexample :
    (is_rate_limited ∅ 0 60 60 false).1.1 = false ∧
    "degraded" ∉ (is_rate_limited ∅ 0 60 60 false).1.2.map Prod.fst := by
  exact ⟨rfl, by decide⟩

/-- Claim C3 (amended): on coordination-store failure both limiters fail
open — `is_rate_limited` returns not-limited with a default info dict whose
keys are exactly requests/limit/remaining/reset_at/window_seconds (no
degraded flag), leaving the window unchanged, and `check_and_increment`
returns `(True, 0)` — but neither sets any `degraded` marker in its
result. -/
theorem c3_fail_open_no_degraded {τ : Type} [LinearOrderedCommRing τ]
    [FloorRing τ] (w : Finset ℤ) (t limit ws : ℤ) (service : String)
    (cfg : LimitConfig) (w2 : Finset τ) (now : τ)
    (hs : LIMITS service = some cfg) :
    (is_rate_limited w t limit ws false).1.1 = false ∧
    (is_rate_limited w t limit ws false).1.2.map Prod.fst =
      ["requests", "limit", "remaining", "reset_at", "window_seconds"] ∧
    (is_rate_limited w t limit ws false).2 = w ∧
    check_and_increment service w2 now false = (⟨true, 0⟩, w2) := by
  refine ⟨rfl, rfl, rfl, ?_⟩
  simp [check_and_increment, hs]

/-- Claim C3 witness. -/
theorem c3_fail_open_no_degraded_witness :
    (is_rate_limited ∅ 0 60 60 false).1.1 = false ∧
    (is_rate_limited ∅ 0 60 60 false).1.2.map Prod.fst =
      ["requests", "limit", "remaining", "reset_at", "window_seconds"] ∧
    (is_rate_limited ∅ 0 60 60 false).2 = ∅ ∧
    check_and_increment "anthropic_api" (∅ : Finset ℤ) 0 false =
      (⟨true, 0⟩, ∅) :=
  c3_fail_open_no_degraded ∅ 0 60 60 "anthropic_api" ⟨50, 60⟩ ∅ 0 (by decide)

/-- Claim C4 (counterexample): the claim says a service name absent from the
limit registry fails with `UnknownServiceError`; but `"model-inference"` is
unregistered and `check_and_increment` admits it with `(True, 0)`,
performing no enforcement. -/
theorem c4_counterexample :
    LIMITS "model-inference" = none ∧
    check_and_increment "model-inference" (∅ : Finset ℤ) 0 true =
      (⟨true, 0⟩, ∅) := by
  exact ⟨by decide, by decide⟩

/-- Claim C4 (amended): for every service name not in the `LIMITS` registry,
`check_and_increment` logs a warning and admits the request with
`(True, 0)`, touching no store state — it silently skips enforcement; no
`UnknownServiceError` exists. -/
theorem c4_unknown_service_admitted {τ : Type} [LinearOrderedCommRing τ]
    [FloorRing τ] (service : String) (w : Finset τ) (now : τ)
    (redis_ok : Bool) (h : LIMITS service = none) :
    check_and_increment service w now redis_ok = (⟨true, 0⟩, w) := by
  simp [check_and_increment, h]

/-- Claim C4 witness. -/
theorem c4_unknown_service_admitted_witness :
    check_and_increment "model-inference" (∅ : Finset ℤ) 5 true =
      (⟨true, 0⟩, ∅) :=
  c4_unknown_service_admitted "model-inference" ∅ 5 true (by decide)

/-- Claim C5 (counterexample): the claim says that after a sync reporting 5
remaining, local checks before the reset reflect at most 5 remaining; but
after `sync_with_twitter_headers` folds headers reporting 5 remaining
(reset at epoch 1000) for `anthropic_api`, six subsequent local checks at
times 0..5 — all before the reset — are all admitted. -/
theorem c5_counterexample :
    (run_workflow_calls "anthropic_api"
        (sync_with_twitter_headers (⟨∅, none⟩ : RedisState ℤ)
          (some ⟨50, 5, 1000⟩)).window (intRange 6)).1.map
        CheckResult.allowed =
      [true, true, true, true, true, true] := by
  decide

/-- Claim C5 (amended): `sync_with_twitter_headers` only stores the
provider's reset epoch under the separate `twitter_reset:` key; it never
modifies the sliding window, and `check_and_increment` never reads the
stored reset, so a sync has no effect whatsoever on subsequent local
checks — no tightening (and no loosening) occurs. -/
theorem c5_sync_is_ignored {τ : Type} [LinearOrderedCommRing τ] [FloorRing τ]
    (st : RedisState τ) (parsed : Option TwitterHeaders) (service : String)
    (now : τ) (redis_ok : Bool) :
    (sync_with_twitter_headers st parsed).window = st.window ∧
    check_and_increment service (sync_with_twitter_headers st parsed).window
        now redis_ok =
      check_and_increment service st.window now redis_ok := by
  have hwin : (sync_with_twitter_headers st parsed).window = st.window := by
    cases parsed <;> rfl
  exact ⟨hwin, by rw [hwin]⟩

/-- Claim C8 (counterexample): the claim says the controller waits the
larger of local backoff and provider retry-after — 8s when the provider
says 8s and the local backoff is 2s.  With `base_delay = 2` and attempt 0
(local backoff 2) against `RateLimitExceeded(retry_after=8)`, the wrapper
sleeps 2s, then 4s, then 8s: the first wait is `min`, not `max`. -/
theorem c8_counterexample :
    (exponential_backoff 3 2 (fun _ => .rateLimited 8)).1 = [2, 4, 8] ∧
    (2 : ℤ) = min ((2 : ℤ) * 2 ^ 0) 8 ∧
    (2 : ℤ) ≠ max ((2 : ℤ) * 2 ^ 0) 8 := by
  exact ⟨by decide, by decide, by decide⟩

/-- Claim C8 (amended): on a rate-limit rejection carrying provider
retry-after `r`, the wrapper waits `min(base_delay * 2 ** attempt, r)` —
the smaller of the local backoff and the provider value (no jitter is
applied): with provider retry-after 8s and local backoff 2s it waits 2s,
not 8s. -/
theorem c8_waits_min (max_retries base_delay : ℕ) (r : ℤ)
    (outcomes : ℕ → CallOutcome) (h0 : outcomes 0 = .rateLimited r)
    (hmr : 0 < max_retries) :
    (exponential_backoff max_retries base_delay outcomes).1.head? =
      some (min ((base_delay : ℤ) * 2 ^ 0) r) := by
  simp [exponential_backoff, backoff_run, h0, hmr]

/-- Claim C8 witness. -/
theorem c8_waits_min_witness :
    (exponential_backoff 3 2 (fun _ => .rateLimited 8)).1.head? =
      some (min ((2 : ℤ) * 2 ^ 0) 8) :=
  c8_waits_min 3 2 8 (fun _ => .rateLimited 8) rfl (by decide)

end Repazoo

namespace Repazoo

set_option maxRecDepth 8000 in
/-- Claim C2 (counterexample): the claim says evict, count and conditional
insert execute as one atomic round trip, so two concurrent same-key calls
can never both observe `count < max_requests` and both be admitted for one
remaining slot.  For the registered `anthropic_api` limit (50 per 60s),
start from a window holding 49 fresh entries (one slot remaining): in the
interleaving "A evict+count, B evict+count, A insert, B insert" — possible
because `check_and_increment` issues the evict+count pipeline and the
insert pipeline as two separate round trips — both callers observe count
49 < 50, both are admitted, and the final window holds 51 entries. -/
theorem c2_counterexample :
    LIMITS "anthropic_api" = some ⟨50, 60⟩ ∧
    (pipe_evict_count ((intRange 49).toFinset) ((49 : ℤ) - 60)).1 = 49 ∧
    (interleave_two ⟨50, 60⟩ ((intRange 49).toFinset) (49 : ℤ) 50).1 = true ∧
    (interleave_two ⟨50, 60⟩ ((intRange 49).toFinset) (49 : ℤ) 50).2.1 = true ∧
    (interleave_two ⟨50, 60⟩ ((intRange 49).toFinset) (49 : ℤ) 50).2.2.card = 51 := by
  refine ⟨by decide, by decide, by decide, by decide, by decide⟩

set_option maxRecDepth 8000 in
/-- Claim C2 (amended): `check_and_increment` performs evict+count in one
atomic pipeline and the conditional insert in a second, separately
observable pipeline (`RateLimiter.is_rate_limited` in the async middleware,
by contrast, bundles evict, count and insert into a single pipeline).
Hence there exists a window one slot short of the `anthropic_api` limit and
an interleaving of two concurrent same-key calls in which both observe
`count < max_requests`, both are admitted, and the window ends past the
limit. -/
theorem c2_two_round_trips :
    ∃ (cfg : LimitConfig) (w0 : Finset ℤ) (tA tB : ℤ),
      LIMITS "anthropic_api" = some cfg ∧
      (pipe_evict_count w0 (tA - (cfg.window_seconds : ℤ))).1 + 1 =
        cfg.requests ∧
      (interleave_two cfg w0 tA tB).1 = true ∧
      (interleave_two cfg w0 tA tB).2.1 = true ∧
      cfg.requests < (interleave_two cfg w0 tA tB).2.2.card :=
  ⟨⟨50, 60⟩, (intRange 49).toFinset, 49, 50, by decide, by decide,
    by decide, by decide, by decide⟩

/-- Claim C9: in the async middleware limiter the window entry is keyed by
the integer-second timestamp alone (`zadd(key, {str(current_time):
current_time})`), so any number of `is_rate_limited` calls at one integer
second add exactly one distinct window entry — the window after `n + 1`
same-second calls equals the window after one, and the counted usage grows
by at most 1 for that second. -/
theorem c9_one_entry_per_second (w : Finset ℤ) (t limit ws : ℤ)
    (hws : 0 < ws) (n : ℕ) :
    iterate_same_second w t limit ws (n + 1) =
      insert t (w.filter (fun e => ¬(0 ≤ e ∧ e ≤ t - ws))) ∧
    (iterate_same_second w t limit ws (n + 1)).card ≤ w.card + 1 := by
  have hkeep : ¬(0 ≤ t ∧ t ≤ t - ws) := by
    rintro ⟨-, h2⟩
    omega
  have key : ∀ m : ℕ, iterate_same_second w t limit ws (m + 1) =
      insert t (w.filter (fun e => ¬(0 ≤ e ∧ e ≤ t - ws))) := by
    intro m
    induction m with
    | zero => rfl
    | succ k ih =>
      show (is_rate_limited (iterate_same_second w t limit ws (k + 1))
          t limit ws true).2 = _
      rw [ih]
      show insert t ((insert t (w.filter fun e => ¬(0 ≤ e ∧ e ≤ t - ws))).filter
          (fun e => ¬(0 ≤ e ∧ e ≤ t - ws))) = _
      rw [Finset.filter_insert, if_pos hkeep, Finset.filter_filter]
      simp
  refine ⟨key n, ?_⟩
  rw [key n]
  calc (insert t (w.filter fun e => ¬(0 ≤ e ∧ e ≤ t - ws))).card
      ≤ (w.filter fun e => ¬(0 ≤ e ∧ e ≤ t - ws)).card + 1 :=
        Finset.card_insert_le _ _
    _ ≤ w.card + 1 := by
        have := Finset.card_filter_le w (fun e => ¬(0 ≤ e ∧ e ≤ t - ws))
        omega

/-- Claim C9 witness. -/
theorem c9_one_entry_per_second_witness :
    (0 : ℤ) < 60 ∧
    (iterate_same_second ({10} : Finset ℤ) 100 60 60 3 =
        insert 100 (({10} : Finset ℤ).filter
          (fun e => ¬(0 ≤ e ∧ e ≤ 100 - 60))) ∧
      (iterate_same_second ({10} : Finset ℤ) 100 60 60 3).card ≤
        ({10} : Finset ℤ).card + 1) :=
  ⟨by decide, c9_one_entry_per_second {10} 100 60 60 (by decide) 2⟩

/-- Claim C10: every request whose URL path starts with one of the exempt
prefixes `/docs`, `/redoc`, `/openapi.json`, `/healthz`, `/api/webhooks` is
forwarded by `RateLimitMiddleware.dispatch` untouched — no per-minute,
per-hour or monthly-quota check runs, and the windows are unchanged. -/
theorem c10_exempt_routes_bypass_checks (st : GateState) (path : String)
    (user_id : Option String) (now : ℤ) (redis_ok : Bool) (db : DbOutcome)
    (rlpm rlph : ℤ)
    (h : ∃ route ∈ EXEMPT_ROUTES, route.data.isPrefixOf path.data = true) :
    dispatch st path user_id now redis_ok db rlpm rlph =
      (.forwarded [], st, []) := by
  have hex : is_exempt path = true := by
    rw [is_exempt, List.any_eq_true]
    exact h
  simp [dispatch, hex]

/-- Claim C10 witness. -/
theorem c10_exempt_routes_bypass_checks_witness :
    dispatch ⟨∅, ∅⟩ "/docs/swagger" none 0 true .noSubscription 60 1000 =
      (.forwarded [], ⟨∅, ∅⟩, []) :=
  c10_exempt_routes_bypass_checks ⟨∅, ∅⟩ "/docs/swagger" none 0 true
    .noSubscription 60 1000 ⟨"/docs", by decide, by decide⟩

/-- Claim C7 (counterexample): the claim says every denial's retry-after is
derived from the oldest surviving entry's age.  In the middleware path a
minute-limit denial (limit 1, window holding one entry of age 30 at `now =
130`) answers `Retry-After: 60` — the fixed window size — although the
oldest surviving entry's age would give `(100 + 60 - 130) + 1 = 31`. -/
theorem c7_counterexample :
    (dispatch ⟨{100}, ∅⟩ "/api/scan" none 130 true .noSubscription 1 1000).1 =
      .tooManyRequests "Rate limit exceeded. Please try again later."
        [("X-RateLimit-Limit", "1"), ("X-RateLimit-Remaining", "0"),
         ("X-RateLimit-Reset", "190"), ("Retry-After", "60")] ∧
    (60 : ℤ) ≠ (100 + 60 - 130) + 1 := by
  exact ⟨by decide, by decide⟩

end Repazoo

namespace Repazoo

/-- The count returned by the evict+count pipeline is the cardinality of
the post-eviction window. -/
theorem pipe_evict_count_fst {τ : Type} [LinearOrderedCommRing τ] [FloorRing τ]
    (w : Finset τ) (s : τ) :
    (pipe_evict_count w s).1 = (pipe_evict_count w s).2.card := rfl

/-- The post-eviction window is the filter keeping scores outside
`[0, window_start]`. -/
theorem pipe_evict_count_snd {τ : Type} [LinearOrderedCommRing τ] [FloorRing τ]
    (w : Finset τ) (s : τ) :
    (pipe_evict_count w s).2 = w.filter (fun e => ¬(0 ≤ e ∧ e ≤ s)) := rfl

/-- For a registered service with the store healthy, `check_and_increment`
is the post-lookup body `check_one`. -/
theorem check_and_increment_some {τ : Type} [LinearOrderedCommRing τ]
    [FloorRing τ] (service : String) (cfg : LimitConfig)
    (hs : LIMITS service = some cfg) (w : Finset τ) (now : τ) :
    check_and_increment service w now true = check_one cfg w now := by
  simp [check_and_increment, hs]

/-- When the post-eviction count is below the limit, `check_one` admits
with retry 0 and inserts the caller's timestamp. -/
theorem check_one_allowed_card {τ : Type} [LinearOrderedCommRing τ] [FloorRing τ]
    (cfg : LimitConfig) (w : Finset τ) (now : τ)
    (hlt : (pipe_evict_count w (now - (cfg.window_seconds : τ))).2.card <
      cfg.requests) :
    check_one cfg w now =
      (⟨true, 0⟩,
        insert now (pipe_evict_count w (now - (cfg.window_seconds : τ))).2) := by
  have hlt1 : (pipe_evict_count w (now - (cfg.window_seconds : τ))).1 <
      cfg.requests := by
    rw [pipe_evict_count_fst]
    exact hlt
  unfold check_one
  rw [if_neg (not_le.mpr hlt1)]
  rfl

/-- When the post-eviction count has reached the limit, `check_one` denies,
leaves the window as evicted, and computes the retry from the oldest
surviving score. -/
theorem check_one_denied_eq {τ : Type} [LinearOrderedCommRing τ] [FloorRing τ]
    (cfg : LimitConfig) (w : Finset τ) (now : τ)
    (hge : cfg.requests ≤
      (pipe_evict_count w (now - (cfg.window_seconds : τ))).2.card) :
    check_one cfg w now =
      (⟨false,
        if h : (pipe_evict_count w (now - (cfg.window_seconds : τ))).2.Nonempty
        then
          pyInt ((pipe_evict_count w (now - (cfg.window_seconds : τ))).2.min' h
            + (cfg.window_seconds : τ) - now) + 1
        else (cfg.window_seconds : ℤ)⟩,
       (pipe_evict_count w (now - (cfg.window_seconds : τ))).2) := by
  have hge1 : cfg.requests ≤
      (pipe_evict_count w (now - (cfg.window_seconds : τ))).1 := by
    rw [pipe_evict_count_fst]
    exact hge
  unfold check_one
  rw [if_pos hge1]

/-- Unfolding one sequential call. -/
theorem run_workflow_calls_cons {τ : Type} [LinearOrderedCommRing τ]
    [FloorRing τ] (service : String) (w : Finset τ) (t : τ) (ts : List τ) :
    run_workflow_calls service w (t :: ts) =
      ((check_and_increment service w t true).1 ::
          (run_workflow_calls service
            (check_and_increment service w t true).2 ts).1,
        (run_workflow_calls service
          (check_and_increment service w t true).2 ts).2) := rfl

end Repazoo

namespace Repazoo

/-- Sequential same-key behaviour of `check_and_increment` over timestamps
that are strictly increasing and never evict one another: starting from a
window of `k ≤ max` live entries, the first `max - k` calls are admitted
and every later call is denied. -/
theorem run_workflow_spec {τ : Type} [LinearOrderedCommRing τ] [FloorRing τ]
    (service : String) (cfg : LimitConfig) (hs : LIMITS service = some cfg)
    (ts : List τ) : ∀ w : Finset τ,
    ts.Pairwise (· < ·) →
    (∀ e ∈ w, ∀ t ∈ ts, e < t) →
    (∀ e ∈ w, ∀ t ∈ ts, t - (cfg.window_seconds : τ) < e) →
    (∀ t ∈ ts, ∀ u ∈ ts, t - (cfg.window_seconds : τ) < u) →
    w.card ≤ cfg.requests →
    (run_workflow_calls service w ts).1.map CheckResult.allowed =
      List.replicate (min ts.length (cfg.requests - w.card)) true ++
        List.replicate (ts.length - (cfg.requests - w.card)) false := by
  induction ts with
  | nil =>
    intro w _ _ _ _ _
    simp [run_workflow_calls]
  | cons t ts ih =>
    intro w hp hwlt hno hspan hcard
    obtain ⟨hhead, htail⟩ := List.pairwise_cons.mp hp
    have hfil : w.filter
        (fun e => ¬(0 ≤ e ∧ e ≤ t - (cfg.window_seconds : τ))) = w := by
      apply Finset.filter_true_of_mem
      intro e he hcon
      exact absurd hcon.2
        (not_le.mpr (hno e he t (List.mem_cons_self t ts)))
    have hfil2 : (pipe_evict_count w (t - (cfg.window_seconds : τ))).2 = w := by
      rw [pipe_evict_count_snd, hfil]
    rw [run_workflow_calls_cons, check_and_increment_some service cfg hs]
    rcases lt_or_le w.card cfg.requests with hlt | hge
    · -- this call is admitted
      have hstep := check_one_allowed_card cfg w t (by rw [hfil2]; exact hlt)
      rw [hfil2] at hstep
      rw [hstep]
      have hnotmem : t ∉ w := fun hmem =>
        lt_irrefl t (hwlt t hmem t (List.mem_cons_self t ts))
      have hcardins : (insert t w).card = w.card + 1 :=
        Finset.card_insert_of_not_mem hnotmem
      have hwlt2 : ∀ e ∈ insert t w, ∀ u ∈ ts, e < u := by
        intro e he u hu
        rcases Finset.mem_insert.mp he with rfl | hew
        · exact hhead u hu
        · exact hwlt e hew u (List.mem_cons_of_mem t hu)
      have hno2 : ∀ e ∈ insert t w, ∀ u ∈ ts,
          u - (cfg.window_seconds : τ) < e := by
        intro e he u hu
        rcases Finset.mem_insert.mp he with heq | hew
        · rw [heq]
          exact hspan u (List.mem_cons_of_mem t hu) t (List.mem_cons_self t ts)
        · exact hno e hew u (List.mem_cons_of_mem t hu)
      have hspan2 : ∀ a ∈ ts, ∀ b ∈ ts,
          a - (cfg.window_seconds : τ) < b := fun a ha b hb =>
        hspan a (List.mem_cons_of_mem t ha) b (List.mem_cons_of_mem t hb)
      have hcard2 : (insert t w).card ≤ cfg.requests := by
        rw [hcardins]
        omega
      have ihres := ih (insert t w) htail hwlt2 hno2 hspan2 hcard2
      simp only [List.map_cons, ihres, hcardins]
      obtain ⟨m, hm⟩ : ∃ m, cfg.requests - w.card = m + 1 :=
        ⟨cfg.requests - w.card - 1, by omega⟩
      have hm2 : cfg.requests - (w.card + 1) = m := by omega
      rw [hm, hm2, List.length_cons, Nat.succ_min_succ, Nat.succ_sub_succ,
        List.replicate_succ, List.cons_append]
    · -- this call is denied; the window is unchanged
      have hstep := check_one_denied_eq cfg w t (by rw [hfil2]; omega)
      rw [hfil2] at hstep
      rw [hstep]
      have hwlt2 : ∀ e ∈ w, ∀ u ∈ ts, e < u := fun e he u hu =>
        hwlt e he u (List.mem_cons_of_mem t hu)
      have hno2 : ∀ e ∈ w, ∀ u ∈ ts,
          u - (cfg.window_seconds : τ) < e := fun e he u hu =>
        hno e he u (List.mem_cons_of_mem t hu)
      have hspan2 : ∀ a ∈ ts, ∀ b ∈ ts,
          a - (cfg.window_seconds : τ) < b := fun a ha b hb =>
        hspan a (List.mem_cons_of_mem t ha) b (List.mem_cons_of_mem t hb)
      have ihres := ih w htail hwlt2 hno2 hspan2 hcard
      simp only [List.map_cons, ihres]
      have h0 : cfg.requests - w.card = 0 := by omega
      rw [h0]
      simp [List.replicate_succ]

end Repazoo

namespace Repazoo

/-- Claim C6 (counterexample): the claim (read over the middleware limiter
it cites) fails when several checks share one integer second: with limit 2
and three `is_rate_limited` calls at second 100 from an empty window, the
first N = 2 calls are admitted but the third — within the same window — is
admitted as well, because the second and third calls insert the same member
`str(100)` and the count never reaches the limit. -/
theorem c6_counterexample :
    (run_middleware_calls 2 60 ∅ [100, 100, 100]).1 =
      [false, false, false] := by
  decide

/-- Claim C6 (amended): for the task-path limiter `check_and_increment`
(whose float timestamps of sequential calls are pairwise distinct), the
claim holds: starting from an empty window, with all `max_requests + 1`
call timestamps strictly increasing and within one window span of each
other, the first `max_requests` checks are admitted and the last is
denied.  (In the async middleware limiter, calls sharing one integer
second collapse to one window entry, so the (N+1)-th check may be
admitted; see the counterexample.) -/
theorem c6_fill_window_then_deny {τ : Type} [LinearOrderedCommRing τ]
    [FloorRing τ] (service : String) (cfg : LimitConfig)
    (hs : LIMITS service = some cfg) (ts : List τ)
    (hsort : ts.Pairwise (· < ·))
    (hspan : ∀ t ∈ ts, ∀ u ∈ ts, t - (cfg.window_seconds : τ) < u)
    (hlen : ts.length = cfg.requests + 1) :
    (run_workflow_calls service (∅ : Finset τ) ts).1.map CheckResult.allowed =
      List.replicate cfg.requests true ++ [false] := by
  have h := run_workflow_spec service cfg hs ts ∅ hsort (by simp) (by simp)
    hspan (by simp)
  rw [h, Finset.card_empty, Nat.sub_zero, hlen]
  have h1 : min (cfg.requests + 1) cfg.requests = cfg.requests := by omega
  have h2 : cfg.requests + 1 - cfg.requests = 1 := by omega
  rw [h1, h2]
  rfl

/-- The integer call times `0, …, n-1` are strictly increasing. -/
theorem intRange_sorted (n : ℕ) : (intRange n).Pairwise (· < ·) := by
  unfold intRange
  exact List.Pairwise.map (fun k : ℕ => (k : ℤ))
    (fun a b hab => Int.ofNat_lt.mpr hab) (List.pairwise_lt_range n)

/-- The integer call times `0, …, n-1` all lie within a window of `ws ≥ n`
seconds of one another. -/
theorem intRange_span (n ws : ℕ) (h : n ≤ ws) :
    ∀ t ∈ intRange n, ∀ u ∈ intRange n, t - (ws : ℤ) < u := by
  intro t ht u hu
  obtain ⟨a, ha, rfl⟩ := List.mem_map.mp ht
  obtain ⟨b, hb, rfl⟩ := List.mem_map.mp hu
  have ha2 := List.mem_range.mp ha
  have hb2 := List.mem_range.mp hb
  omega

/-- Claim C6 witness: the registered `anthropic_api` limit of 50 per 60s,
51 sequential calls at seconds 0..50 from an empty window: 50 admissions,
then a denial. -/
theorem c6_fill_window_then_deny_witness :
    (run_workflow_calls "anthropic_api" (∅ : Finset ℤ) (intRange 51)).1.map
        CheckResult.allowed = List.replicate 50 true ++ [false] :=
  c6_fill_window_then_deny "anthropic_api" ⟨50, 60⟩ (by decide) (intRange 51)
    (intRange_sorted 51) (intRange_span 51 60 (by decide)) (by decide)

end Repazoo

namespace Repazoo

/-- Claim C7 (amended): in the task-path limiter `check_and_increment`, the
claim holds — on a denial (for a registered service, window entries live
and not in the future, at most `max_requests` of them) the returned
`retry_after` equals `int(oldest_surviving + window_seconds - now) + 1`,
derived from the oldest surviving entry, and the next admission for the key
at `now + retry_after` is allowed.  (The middleware's `Retry-After` header,
in contrast, is the fixed window size; see the counterexample.) -/
theorem c7_retry_after_from_oldest {τ : Type} [LinearOrderedCommRing τ]
    [FloorRing τ] (service : String) (cfg : LimitConfig)
    (hs : LIMITS service = some cfg) (hpos : 1 ≤ cfg.requests)
    (w : Finset τ) (now : τ)
    (hw : ∀ e ∈ w, 0 ≤ e ∧ e ≤ now)
    (hcard : w.card ≤ cfg.requests)
    (hdenied : (check_and_increment service w now true).1.allowed = false) :
    ∃ hne : (pipe_evict_count w (now - (cfg.window_seconds : τ))).2.Nonempty,
      (check_and_increment service w now true).1.retry_after =
        pyInt ((pipe_evict_count w (now - (cfg.window_seconds : τ))).2.min' hne
          + (cfg.window_seconds : τ) - now) + 1 ∧
      (check_and_increment service (check_and_increment service w now true).2
          (now + (((check_and_increment service w now true).1.retry_after : ℤ) : τ))
          true).1.allowed = true := by
  simp only [check_and_increment_some service cfg hs] at hdenied ⊢
  set W1 := (pipe_evict_count w (now - (cfg.window_seconds : τ))).2 with hW1
  have hW1sub : W1 ⊆ w := by
    rw [hW1, pipe_evict_count_snd]
    exact Finset.filter_subset _ _
  have hge : cfg.requests ≤ W1.card := by
    by_contra hcon
    push_neg at hcon
    rw [check_one_allowed_card cfg w now hcon] at hdenied
    simp at hdenied
  have hne : W1.Nonempty := Finset.card_pos.mp (by omega)
  have heq := check_one_denied_eq cfg w now hge
  refine ⟨hne, ?_, ?_⟩
  · rw [heq]
    exact dif_pos hne
  · -- facts about the oldest surviving entry
    have holdmemW1 : W1.min' hne ∈ W1 := W1.min'_mem hne
    have holdmemw : W1.min' hne ∈ w := hW1sub holdmemW1
    have holdkeep : ¬(0 ≤ W1.min' hne ∧
        W1.min' hne ≤ now - (cfg.window_seconds : τ)) := by
      have hmf : W1.min' hne ∈ w.filter
          (fun e => ¬(0 ≤ e ∧ e ≤ now - (cfg.window_seconds : τ))) := by
        rw [← pipe_evict_count_snd]
        exact holdmemW1
      exact (Finset.mem_filter.mp hmf).2
    obtain ⟨hold0, holdnow⟩ := hw _ holdmemw
    have holdfresh : now - (cfg.window_seconds : τ) < W1.min' hne := by
      by_contra hcon
      push_neg at hcon
      exact holdkeep ⟨hold0, hcon⟩
    have hqpos : (0 : τ) <
        W1.min' hne + (cfg.window_seconds : τ) - now := by
      linarith
    have hretry : (check_one cfg w now).1.retry_after =
        ⌊W1.min' hne + (cfg.window_seconds : τ) - now⌋ + 1 := by
      rw [heq]
      show (if h : W1.Nonempty then
          pyInt (W1.min' h + (cfg.window_seconds : τ) - now) + 1
        else (cfg.window_seconds : ℤ)) = _
      rw [dif_pos hne, pyInt, if_pos (le_of_lt hqpos)]
    have hstate : (check_one cfg w now).2 = W1 := by rw [heq]
    rw [hstate, hretry]
    -- at `now + retry` the oldest surviving entry is evicted
    have hrgt : W1.min' hne + (cfg.window_seconds : τ) - now <
        ((⌊W1.min' hne + (cfg.window_seconds : τ) - now⌋ + 1 : ℤ) : τ) := by
      push_cast
      exact Int.lt_floor_add_one _
    have hW1card : W1.card = cfg.requests :=
      le_antisymm (le_trans (Finset.card_le_card hW1sub) hcard) hge
    rw [check_one_allowed_card]
    have hsub2 : (pipe_evict_count W1
        (now + ((⌊W1.min' hne + (cfg.window_seconds : τ) - now⌋ + 1 : ℤ) : τ)
          - (cfg.window_seconds : τ))).2 ⊆ W1.erase (W1.min' hne) := by
      rw [pipe_evict_count_snd]
      intro x hx
      rw [Finset.mem_filter] at hx
      obtain ⟨hxW1, hxkeep⟩ := hx
      rw [Finset.mem_erase]
      refine ⟨?_, hxW1⟩
      rintro rfl
      apply hxkeep
      refine ⟨hold0, ?_⟩
      linarith
    calc (pipe_evict_count W1
          (now + ((⌊W1.min' hne + (cfg.window_seconds : τ) - now⌋ + 1 : ℤ) : τ)
            - (cfg.window_seconds : τ))).2.card
        ≤ (W1.erase (W1.min' hne)).card := Finset.card_le_card hsub2
      _ = W1.card - 1 := Finset.card_erase_of_mem holdmemW1
      _ < cfg.requests := by omega

set_option maxRecDepth 8000 in
/-- Claim C7 witness: `anthropic_api` (50/60s), 50 live entries at seconds
0..49, denial at `now = 49`; `retry_after` is `(0 + 60 - 49) + 1 = 12`,
derived from the oldest entry 0, and the check at `49 + 12 = 61` is
admitted. -/
theorem c7_retry_after_from_oldest_witness :
    ∃ hne : (pipe_evict_count ((intRange 50).toFinset)
        ((49 : ℤ) - ((60 : ℕ) : ℤ))).2.Nonempty,
      (check_and_increment "anthropic_api" ((intRange 50).toFinset)
          (49 : ℤ) true).1.retry_after =
        pyInt ((pipe_evict_count ((intRange 50).toFinset)
              ((49 : ℤ) - ((60 : ℕ) : ℤ))).2.min' hne
          + ((60 : ℕ) : ℤ) - (49 : ℤ)) + 1 ∧
      (check_and_increment "anthropic_api"
          (check_and_increment "anthropic_api" ((intRange 50).toFinset)
            (49 : ℤ) true).2
          ((49 : ℤ) + (((check_and_increment "anthropic_api"
              ((intRange 50).toFinset) (49 : ℤ) true).1.retry_after : ℤ) : ℤ))
          true).1.allowed = true :=
  c7_retry_after_from_oldest "anthropic_api" ⟨50, 60⟩ (by decide) (by decide)
    ((intRange 50).toFinset) 49 (by decide) (by decide) (by decide)

end Repazoo
